import Mathlib

/-!
The httpbin service of `src/server.js`: request snapshot, client address, status and
delay routes.

A shallow embedding of the Express handlers of `src/server.js`.

* JavaScript values are the inductive `JSVal`; an object is an association list in
  insertion order, so "the key is present" is `List.lookup k o ≠ none`.
* `parseInt` is modelled on the characters of its argument, following ECMA-262
  (leading white space, sign, `0x` marker, longest run of digits).  It returns
  `none` for `NaN` and the mathematical integer otherwise.  The double rounding
  JavaScript applies beyond `2^53` in absolute value is monotone and fixes every
  smaller integer, so the comparisons with `100`, `600` and `10` made by the
  handlers agree with the model for every input, and the numbers and texts the
  handlers echo agree with it whenever the integer read is below `2^53` in absolute
  value.  Every theorem below that speaks of an echoed number has it in `[0, 599]`.
* `new Date().toISOString()` is the parameter `now`.
* A handler either answers synchronously (`Outcome.respond`) or arms one timer
  (`Outcome.setTimeout ms callback`); the callback receives the clock reading of
  the instant it runs.
-/

namespace Httpbin

/-! ## JavaScript values -/

/-- JavaScript values that a request can carry.  Numbers are the integral ones and
`NaN`; `num 0` also stands for `-0` (both are falsy and print as `0`). -/
inductive JSVal where
  | undefined
  | null
  | bool (b : Bool)
  | num (i : Int)
  | nan
  | str (s : String)
  | arr (items : List JSVal)
  | buffer (bytes : List Nat)
  | obj (members : List (String × JSVal))

/-- A plain object: its own enumerable members in insertion order, keys distinct. -/
abbrev Obj := List (String × JSVal)

/-- ToBoolean: `undefined`, `null`, `false`, `0`, `NaN` and the empty string are falsy. -/
def truthy : JSVal → Bool
  | .undefined => false
  | .null => false
  | .bool b => b
  | .num i => i != 0
  | .nan => false
  | .str s => s != ""
  | .arr _ => true
  | .buffer _ => true
  | .obj _ => true

/-- The test `typeof v === 'object'`: true of `null`, arrays, buffers and plain objects. -/
def typeofIsObject : JSVal → Bool
  | .null => true
  | .arr _ => true
  | .buffer _ => true
  | .obj _ => true
  | _ => false

/-- The value of `Object.keys(v).length` for an object value: an array and a buffer
have one key per index.  (`Object.keys(null)` throws; the source only reaches the
call behind `!req.body ||`, which is already true for `null`.) -/
def objectKeysLength : JSVal → Nat
  | .arr items => items.length
  | .buffer bytes => bytes.length
  | .obj members => members.length
  | _ => 0

/-- The operator `a || b`. -/
def jsOr (a b : JSVal) : JSVal := if truthy a then a else b

/-- Property read `o[k]`: the member value, `undefined` when the key is absent. -/
def getProp (o : Obj) (k : String) : JSVal :=
  match o.lookup k with
  | some v => v
  | none => .undefined

/-- The statement `delete o[k]`. -/
def deleteProp (o : Obj) (k : String) : Obj := o.filter (fun kv => kv.1 != k)

/-- The members `JSON.stringify` writes for an object: a member whose value is
`undefined` is skipped. -/
def jsonMembers (o : Obj) : Obj :=
  o.filter (fun kv => match kv.2 with
    | .undefined => false
    | _ => true)

/-- Number to string conversion of an integral number, as a template literal does it:
the decimal text, for integers below `10^21` in absolute value. -/
def numToString (i : Int) : String := toString i

/-! ## `parseInt` -/

/-- White space and line terminators that `parseInt` skips at the start (StrWhiteSpaceChar). -/
def isStrWhiteSpace (c : Char) : Bool :=
  let n := c.toNat
  n == 0x09 || n == 0x0A || n == 0x0B || n == 0x0C || n == 0x0D || n == 0x20 ||
  n == 0xA0 || n == 0x1680 || (0x2000 ≤ n && n ≤ 0x200A) || n == 0x2028 || n == 0x2029 ||
  n == 0x202F || n == 0x205F || n == 0x3000 || n == 0xFEFF

/-- The value of a character as a digit in some radix up to 36, if it is one. -/
def digitOf (c : Char) : Option Nat :=
  let n := c.toNat
  if 48 ≤ n ∧ n ≤ 57 then some (n - 48)
  else if 97 ≤ n ∧ n ≤ 122 then some (n - 97 + 10)
  else if 65 ≤ n ∧ n ≤ 90 then some (n - 65 + 10)
  else none

/-- The value of a character as a radix-`R` digit, if it is one. -/
def radixDigit (R : Nat) (c : Char) : Option Nat :=
  match digitOf c with
  | some d => if d < R then some d else none
  | none => none

/-- Reads the longest leading run of radix-`R` digits, accumulating its value;
`acc` is `none` until a first digit has been read. -/
def readDigits (R : Nat) : List Char → Option Nat → Option Nat
  | [], acc => acc
  | c :: cs, acc =>
    match radixDigit R c with
    | some d => readDigits R cs (some (R * acc.getD 0 + d))
    | none => acc

/-- Removes one leading sign character. -/
def dropSign : List Char → List Char
  | '+' :: t => t
  | '-' :: t => t
  | s => s

/-- The radix and the remaining characters after an optional `0x` / `0X` marker. -/
def splitRadix : List Char → Nat × List Char
  | '0' :: 'x' :: t => (16, t)
  | '0' :: 'X' :: t => (16, t)
  | s => (10, s)

/-- The function `parseInt(string)` with no radix argument, on the characters of the
string: `none` is `NaN`. -/
def parseIntChars (cs : List Char) : Option Int :=
  let s := cs.dropWhile isStrWhiteSpace
  let negative := s.head? == some '-'
  let rs := splitRadix (dropSign s)
  match readDigits rs.1 rs.2 none with
  | none => none
  | some m => some (if negative then -(m : Int) else (m : Int))

/-- The call `parseInt(v)` for a route parameter `v`: a string, or `undefined` (`none`)
when the parameter is missing, which `parseInt` first converts to the text `undefined`. -/
def parseInt : Option String → Option Int
  | some s => parseIntChars s.toList
  | none => parseIntChars "undefined".toList

/-! ## Requests -/

/-- A transport socket as the source reads it: only `remoteAddress` (a string, or
`undefined` once the peer is gone). -/
structure Socket where
  remoteAddress : JSVal

/-- The object `req.connection`: its own `remoteAddress` and the optional nested
`socket` member (`none` when `req.connection.socket` is `undefined`). -/
structure Connection where
  remoteAddress : JSVal
  socket : Option Socket

/-- The Express request, restricted to what `src/server.js` reads.  Header names are
lower case, as Node delivers them.  Route parameters are strings.  `cookies` is
`none` when `req.cookies` is `undefined`. -/
structure Request where
  method : String
  url : String
  path : String
  protocol : String
  hostname : JSVal
  headers : Obj
  query : Obj
  params : List (String × String)
  body : JSVal
  cookies : Option Obj
  connection : Connection
  socket : Socket

/-- The object `req.params` as a JavaScript value. -/
def paramsObj (req : Request) : Obj := req.params.map (fun kv => (kv.1, JSVal.str kv.2))

/-- The value `req.cookies`. -/
def cookiesVal (req : Request) : JSVal :=
  match req.cookies with
  | some c => .obj c
  | none => .undefined

/-- The function `getClientIP` (server.js 18-23). -/
def getClientIP (req : Request) : JSVal :=
  jsOr (jsOr (jsOr (getProp req.headers "x-forwarded-for")
        req.connection.remoteAddress)
      req.socket.remoteAddress)
    (match req.connection.socket with
     | some s => s.remoteAddress
     | none => .null)

/-- The condition under which `formatRequestData` deletes `body` (server.js 49). -/
def bodyIsDropped (body : JSVal) : Bool :=
  !truthy body || (typeofIsObject body && objectKeysLength body == 0)

/-- The object literal `data` of `formatRequestData` before the deletion (server.js 27-46). -/
def requestData (req : Request) (now : String) : Obj :=
  [ ("timestamp", .str now),
    ("method", .str req.method),
    ("url", .str req.url),
    ("path", .str req.path),
    ("protocol", .str req.protocol),
    ("hostname", req.hostname),
    ("ip", getClientIP req),
    ("headers", .obj req.headers),
    ("query", .obj req.query),
    ("params", .obj (paramsObj req)),
    ("body", req.body),
    ("cookies", jsOr (cookiesVal req) (.obj [])),
    ("userAgent", getProp req.headers "user-agent"),
    ("contentType", getProp req.headers "content-type"),
    ("contentLength", getProp req.headers "content-length"),
    ("host", getProp req.headers "host"),
    ("origin", getProp req.headers "origin"),
    ("referer", getProp req.headers "referer") ]

/-- The function `formatRequestData` (server.js 26-54). -/
def formatRequestData (req : Request) (now : String) : Obj :=
  let data := requestData req now
  if bodyIsDropped req.body then deleteProp data "body" else data

/-! ## Handlers -/

/-- What a handler sends: the status line and the value given to `res.json`. -/
structure Response where
  status : Int
  body : JSVal

/-- What a handler does with a request: answer at once, or arm a timer whose
callback answers when it runs. -/
inductive Outcome where
  | respond (r : Response)
  | setTimeout (ms : Int) (callback : String → Response)

/-- The body of the 400 answer of `/status/:code` (server.js 141-144). -/
def invalidStatusBody : JSVal :=
  .obj [ ("error", .str "Invalid status code"),
         ("message", .str "Status code must be between 100 and 599") ]

/-- The handler of `/status/:code` (server.js 132-146).  `NaN` fails both comparisons. -/
def statusHandler (req : Request) (now : String) : Outcome :=
  match parseInt (req.params.lookup "code") with
  | some statusCode =>
    if 100 ≤ statusCode ∧ statusCode < 600 then
      .respond
        { status := statusCode
          body := .obj [ ("status", .num statusCode),
                         ("message", .str ("HTTP " ++ numToString statusCode)),
                         ("request", .obj (formatRequestData req now)) ] }
    else
      .respond { status := 400, body := invalidStatusBody }
  | none => .respond { status := 400, body := invalidStatusBody }

/-- The constant `maxDelay` (server.js 151). -/
def maxDelay : Int := 10

/-- The expression `parseInt(req.params.seconds) || 0` (server.js 150). -/
def parsedDelay (req : Request) : Int :=
  match parseInt (req.params.lookup "seconds") with
  | some n => if n != 0 then n else 0
  | none => 0

/-- The answer the timer callback of `/delay/:seconds` sends (server.js 160-164). -/
def delayedResponse (req : Request) (delay : Int) (now : String) : Response :=
  { status := 200
    body := .obj [ ("delay", .num delay),
                   ("message", .str ("Delayed response by " ++ numToString delay ++ " seconds")),
                   ("request", .obj (formatRequestData req now)) ] }

/-- The handler of `/delay/:seconds` (server.js 149-166). -/
def delayHandler (req : Request) : Outcome :=
  let delay := parsedDelay req
  if delay > maxDelay then
    .respond
      { status := 400
        body := .obj [ ("error", .str ("Delay too long. Maximum delay is " ++
                          numToString maxDelay ++ " seconds")) ] }
  else
    .setTimeout (delay * 1000) (delayedResponse req delay)

/-- The handler of `/ip` (server.js 109-113). -/
def ipHandler (req : Request) : Outcome :=
  .respond { status := 200, body := .obj [ ("origin", getClientIP req) ] }

/-- The list `l` is a non-empty run of decimal digit characters whose value is `n`,
as `readDigits` sees it from any accumulator. -/
def DecRep (l : List Char) (n : Nat) : Prop :=
  l ≠ [] ∧ (∀ c ∈ l, ∃ d, d < 10 ∧ c = Nat.digitChar d) ∧
    ∀ (acc : Option Nat) (rest : List Char),
      readDigits 10 (l ++ rest) acc = readDigits 10 rest (some (10 ^ l.length * acc.getD 0 + n))

/-- The body shapes that count as non-empty for `formatRequestData`: a non-empty
string, a non-zero number, `true`, and an array, buffer or plain object with at
least one key. -/
def NonEmptyBody : JSVal → Prop
  | .str s => s ≠ ""
  | .num i => i ≠ 0
  | .bool b => b = true
  | .arr items => items ≠ []
  | .buffer bytes => bytes ≠ []
  | .obj members => members ≠ []
  | _ => False

/-! ## Sample requests -/

/-- A local `GET /` with no body, no cookies and no forwarding header. -/
def sampleRequest : Request :=
  { method := "GET", url := "/", path := "/", protocol := "http",
    hostname := .str "localhost",
    headers := [("host", .str "localhost:3000"), ("user-agent", .str "curl/8.5.0")],
    query := [], params := [], body := .obj [], cookies := none,
    connection := { remoteAddress := .str "127.0.0.1", socket := none },
    socket := { remoteAddress := .str "127.0.0.1" } }

/-- A request matched by `/status/:code` with the given parameter text. -/
def statusRequest (code : String) : Request :=
  { sampleRequest with
    url := "/status/" ++ code, path := "/status/" ++ code, params := [("code", code)] }

/-- A request matched by `/delay/:seconds` with the given parameter text. -/
def delayRequest (seconds : String) : Request :=
  { sampleRequest with
    url := "/delay/" ++ seconds, path := "/delay/" ++ seconds, params := [("seconds", seconds)] }

/-- A `POST /post` carrying the given parsed body. -/
def postRequest (body : JSVal) : Request :=
  { sampleRequest with method := "POST", url := "/post", path := "/post", body := body }

/-- A `GET /ip` whose `X-Forwarded-For` header has the given value. -/
def forwardedRequest (value : String) : Request :=
  { sampleRequest with
    url := "/ip", path := "/ip",
    headers := [("host", .str "localhost:3000"), ("x-forwarded-for", .str value)] }

/-- A `GET /ip` whose `X-Forwarded-For` header has the given value, sent from the given
peer address (the connection and the socket report the same address). -/
def forwardedRequestFrom (value peer : String) : Request :=
  { sampleRequest with
    url := "/ip", path := "/ip",
    headers := [("host", .str "localhost:3000"), ("x-forwarded-for", .str value)],
    connection := { remoteAddress := .str peer, socket := none },
    socket := { remoteAddress := .str peer } }

/-- A source of the client address is present when it is neither `undefined` nor `null`. -/
def isPresent : JSVal → Bool
  | .undefined => false
  | .null => false
  | _ => true

/-- A hand-built request object with no forwarding header and no address on the
connection or the socket, whose connection carries the given nested socket (the shape
the ternary of server.js 22 provides for; a Node connection has no such member). -/
def nestedSocketRequest (nested : Option Socket) : Request :=
  { sampleRequest with
    url := "/ip", path := "/ip",
    connection := { remoteAddress := .undefined, socket := nested },
    socket := { remoteAddress := .undefined } }

end Httpbin

namespace Httpbin

/-! ## Decimal text is read back by `parseInt` -/

theorem radixDigit_digitChar (d : Nat) (h : d < 10) : radixDigit 10 (Nat.digitChar d) = some d := by
  interval_cases d <;> rfl

theorem digitChar_plain (d : Nat) (h : d < 10) :
    isStrWhiteSpace (Nat.digitChar d) = false ∧ Nat.digitChar d ≠ '+' ∧
      Nat.digitChar d ≠ '-' ∧ Nat.digitChar d ≠ 'x' ∧ Nat.digitChar d ≠ 'X' := by
  interval_cases d <;> decide

theorem decRep_single (d : Nat) (h : d < 10) : DecRep [Nat.digitChar d] d := by
  refine ⟨by simp, ?_, ?_⟩
  · intro c hc
    exact ⟨d, h, by simpa using hc⟩
  · intro acc rest
    simp [readDigits, radixDigit_digitChar d h]

theorem decRep_snoc {l : List Char} {m : Nat} (hl : DecRep l m) (d : Nat) (h : d < 10) :
    DecRep (l ++ [Nat.digitChar d]) (10 * m + d) := by
  obtain ⟨_, hdig, hval⟩ := hl
  refine ⟨by simp, ?_, ?_⟩
  · intro c hc
    rcases List.mem_append.mp hc with hc | hc
    · exact hdig c hc
    · exact ⟨d, h, by simpa using hc⟩
  · intro acc rest
    rw [List.append_assoc, hval]
    simp [readDigits, radixDigit_digitChar d h, pow_succ]
    ring_nf

theorem toDigitsCore_decRep (fuel : Nat) : ∀ (n : Nat) (ds : List Char), n < fuel →
    ∃ l, Nat.toDigitsCore 10 fuel n ds = l ++ ds ∧ DecRep l n := by
  induction fuel with
  | zero => intro n ds h; omega
  | succ fuel ih =>
    intro n ds h
    have hmod : n % 10 < 10 := Nat.mod_lt _ (by decide)
    by_cases hq : n / 10 = 0
    · refine ⟨[Nat.digitChar (n % 10)], by simp [Nat.toDigitsCore, hq], ?_⟩
      have hn : n % 10 = n := by omega
      simpa [hn] using decRep_single (n % 10) hmod
    · obtain ⟨l, hl, hrep⟩ := ih (n / 10) (Nat.digitChar (n % 10) :: ds) (by omega)
      refine ⟨l ++ [Nat.digitChar (n % 10)], by simp [Nat.toDigitsCore, hq, hl], ?_⟩
      have hn : 10 * (n / 10) + n % 10 = n := Nat.div_add_mod n 10
      simpa [hn] using decRep_snoc hrep (n % 10) hmod

theorem decRep_toDigits (n : Nat) : DecRep (Nat.toDigits 10 n) n := by
  obtain ⟨l, hl, hrep⟩ := toDigitsCore_decRep (n + 1) n [] (by omega)
  have : Nat.toDigits 10 n = l := by simpa [Nat.toDigits] using hl
  rw [this]; exact hrep

theorem decRep_shape {l : List Char} {n : Nat} (h : DecRep l n) :
    l.dropWhile isStrWhiteSpace = l ∧ (l.head? == some '-') = false ∧ dropSign l = l ∧
      splitRadix l = (10, l) ∧ readDigits 10 l none = some n := by
  obtain ⟨hne, hdig, hval⟩ := h
  have hread : readDigits 10 l none = some n := by
    have := hval none []
    simpa [readDigits] using this
  cases l with
  | nil => exact absurd rfl hne
  | cons c t =>
    obtain ⟨d, hd, rfl⟩ := hdig c (by simp)
    obtain ⟨hws, hplus, hminus, -, -⟩ := digitChar_plain d hd
    refine ⟨by simp [List.dropWhile, hws], ?_, ?_, ?_, hread⟩
    · simpa using hminus
    · unfold dropSign
      split
      · rename_i heq; simp at heq; exact absurd heq.1 hplus
      · rename_i heq; simp at heq; exact absurd heq.1 hminus
      · rfl
    · cases t with
      | nil => unfold splitRadix; split <;> simp_all
      | cons c2 t2 =>
        obtain ⟨d2, hd2, rfl⟩ := hdig c2 (by simp)
        obtain ⟨-, -, -, hx, hX⟩ := digitChar_plain d2 hd2
        unfold splitRadix
        split
        · rename_i heq; simp at heq; exact absurd heq.2.1.symm (by simpa using hx.symm)
        · rename_i heq; simp at heq; exact absurd heq.2.1.symm (by simpa using hX.symm)
        · rfl

theorem parseIntChars_decRep {l : List Char} {n : Nat} (h : DecRep l n) :
    parseIntChars l = some (n : Int) := by
  obtain ⟨h1, h2, h3, h4, h5⟩ := decRep_shape h
  simp [parseIntChars, h1, h2, h3, h4, h5]

theorem parseIntChars_minus_decRep {l : List Char} {n : Nat} (h : DecRep l n) :
    parseIntChars ('-' :: l) = some (-(n : Int)) := by
  obtain ⟨-, -, -, h4, h5⟩ := decRep_shape h
  have hws : isStrWhiteSpace '-' = false := by decide
  simp [parseIntChars, List.dropWhile, hws, dropSign, h4, h5]

theorem toString_nat_toList (n : Nat) : (toString n).toList = Nat.toDigits 10 n := rfl

theorem toString_int_toList (i : Int) :
    (toString i).toList =
      match i with
      | Int.ofNat n => Nat.toDigits 10 n
      | Int.negSucc n => '-' :: Nat.toDigits 10 (n + 1) := by
  cases i <;> rfl

/-- The decimal text of an integer is read back by `parseInt` as that integer. -/
theorem parseInt_toString (i : Int) : parseInt (some (toString i)) = some i := by
  cases i with
  | ofNat n =>
    show parseIntChars (toString (Int.ofNat n)).toList = _
    rw [toString_int_toList]
    exact parseIntChars_decRep (decRep_toDigits n)
  | negSucc n =>
    show parseIntChars (toString (Int.negSucc n)).toList = _
    rw [toString_int_toList]
    simpa [Int.negSucc_eq] using parseIntChars_minus_decRep (decRep_toDigits (n + 1))

theorem toString_int_chars (i : Int) (c : Char) (hc : c ∈ (toString i).toList) :
    c = '-' ∨ ∃ d, d < 10 ∧ c = Nat.digitChar d := by
  rw [toString_int_toList] at hc
  cases i with
  | ofNat n => exact Or.inr ((decRep_toDigits n).2.1 c hc)
  | negSucc n =>
    rcases List.mem_cons.mp hc with hc | hc
    · exact Or.inl hc
    · exact Or.inr ((decRep_toDigits (n + 1)).2.1 c hc)

/-- A text holding the letter `a` is not the decimal text of an integer. -/
theorem not_decimal_of_letter_a (s : String) (ha : 'a' ∈ s.toList) (i : Int) : toString i ≠ s := by
  intro h
  subst h
  rcases toString_int_chars i 'a' ha with h | ⟨d, hd, h⟩
  · exact absurd h (by decide)
  · interval_cases d <;> exact absurd h (by decide)

/-! ## `/status/:code` -/

/-- C1: when the `code` parameter is the decimal text of an integer `n` with
`100 ≤ n ≤ 599`, the status handler answers at once with HTTP status `n` and the body
`status: n`, `message: "HTTP " ++ n`, `request:` the snapshot of `formatRequestData`. -/
theorem status_handler_valid_code (req : Request) (now : String) (n : Int)
    (hcode : req.params.lookup "code" = some (toString n)) (hlo : 100 ≤ n) (hhi : n ≤ 599) :
    statusHandler req now =
      .respond
        { status := n
          body := .obj [ ("status", .num n),
                         ("message", .str ("HTTP " ++ toString n)),
                         ("request", .obj (formatRequestData req now)) ] } := by
  have hlt : n < 600 := by omega
  simp [statusHandler, hcode, parseInt_toString, hlo, hlt, numToString]

theorem status_handler_valid_code_witness :
    (statusRequest "404").params.lookup "code" = some (toString (404 : Int)) ∧
      (100 : Int) ≤ 404 ∧ (404 : Int) ≤ 599 ∧
      statusHandler (statusRequest "404") "2024-01-01T00:00:00.000Z" =
        .respond
          { status := 404
            body := .obj [ ("status", .num 404),
                           ("message", .str ("HTTP " ++ toString (404 : Int))),
                           ("request", .obj (formatRequestData (statusRequest "404")
                              "2024-01-01T00:00:00.000Z")) ] } :=
  ⟨rfl, by decide, by decide,
    status_handler_valid_code (statusRequest "404") "2024-01-01T00:00:00.000Z" 404 rfl
      (by decide) (by decide)⟩

/-- C2, as stated, fails: the parameter `200abc` is not the decimal text of any integer,
yet the status handler answers with HTTP status 200 and not with the 400 error. -/
theorem status_handler_trailing_letters_accepted :
    (∀ i : Int, toString i ≠ "200abc") ∧
      statusHandler (statusRequest "200abc") "2024-01-01T00:00:00.000Z" =
        .respond
          { status := 200
            body := .obj [ ("status", .num 200),
                           ("message", .str "HTTP 200"),
                           ("request", .obj (formatRequestData (statusRequest "200abc")
                              "2024-01-01T00:00:00.000Z")) ] } ∧
      statusHandler (statusRequest "200abc") "2024-01-01T00:00:00.000Z" ≠
        .respond { status := 400, body := invalidStatusBody } := by
  have heval : statusHandler (statusRequest "200abc") "2024-01-01T00:00:00.000Z" =
      .respond
        { status := 200
          body := .obj [ ("status", .num 200),
                         ("message", .str "HTTP 200"),
                         ("request", .obj (formatRequestData (statusRequest "200abc")
                            "2024-01-01T00:00:00.000Z")) ] } := rfl
  refine ⟨not_decimal_of_letter_a "200abc" (by decide), heval, ?_⟩
  rw [heval]
  intro h
  injection h with h
  injection h with hstatus _
  exact absurd hstatus (by decide)

/-- C2, amended: when `parseInt` reads no number from the `code` parameter (`NaN`), or
reads an integer outside `[100, 599]`, the status handler answers with HTTP status 400
and exactly the documented error body. -/
theorem status_handler_invalid_code (req : Request) (now : String)
    (h : parseInt (req.params.lookup "code") = none ∨
      ∃ n : Int, parseInt (req.params.lookup "code") = some n ∧ (n < 100 ∨ 599 < n)) :
    statusHandler req now =
      .respond
        { status := 400
          body := .obj [ ("error", .str "Invalid status code"),
                         ("message", .str "Status code must be between 100 and 599") ] } := by
  rcases h with h | ⟨n, hparse, hn⟩
  · simp [statusHandler, h, invalidStatusBody]
  · have hout : ¬ (100 ≤ n ∧ n < 600) := by omega
    simp [statusHandler, hparse, hout, invalidStatusBody]

theorem status_handler_invalid_code_witness :
    (parseInt ((statusRequest "600abc").params.lookup "code") = none ∨
      ∃ n : Int, parseInt ((statusRequest "600abc").params.lookup "code") = some n ∧
        (n < 100 ∨ 599 < n)) ∧
      statusHandler (statusRequest "600abc") "2024-01-01T00:00:00.000Z" =
        .respond
          { status := 400
            body := .obj [ ("error", .str "Invalid status code"),
                           ("message", .str "Status code must be between 100 and 599") ] } :=
  ⟨Or.inr ⟨600, rfl, Or.inr (by decide)⟩,
    status_handler_invalid_code (statusRequest "600abc") "2024-01-01T00:00:00.000Z"
      (Or.inr ⟨600, rfl, Or.inr (by decide)⟩)⟩

/-- The two cases the status claim names fall under `status_handler_invalid_code`: a text
from which no number is read, and the decimal text of an integer outside `[100, 599]`. -/
theorem status_invalid_cases (n : Int) (hn : n < 100 ∨ 599 < n) :
    parseInt (some "abc") = none ∧
      ∃ m : Int, parseInt (some (toString n)) = some m ∧ (m < 100 ∨ 599 < m) :=
  ⟨rfl, n, parseInt_toString n, hn⟩

/-! ## `formatRequestData` -/

theorem deleteProp_cons_same (k : String) (v : JSVal) (t : Obj) :
    deleteProp ((k, v) :: t) k = deleteProp t k := by
  simp [deleteProp, List.filter_cons]

theorem deleteProp_cons_other (a k : String) (v : JSVal) (t : Obj) (h : a ≠ k) :
    deleteProp ((a, v) :: t) k = (a, v) :: deleteProp t k := by
  simp [deleteProp, List.filter_cons, h]

theorem lookup_deleteProp_self (o : Obj) (k : String) : (deleteProp o k).lookup k = none := by
  induction o with
  | nil => rfl
  | cons kv t ih =>
    obtain ⟨a, v⟩ := kv
    by_cases h : a = k
    · subst h
      rw [deleteProp_cons_same]; exact ih
    · have hk : (k == a) = false := by simpa using fun e => h e.symm
      rw [deleteProp_cons_other _ _ _ _ h, List.lookup_cons, hk]
      exact ih

theorem lookup_deleteProp_of_ne (o : Obj) (k j : String) (hj : j ≠ k) :
    (deleteProp o k).lookup j = o.lookup j := by
  induction o with
  | nil => rfl
  | cons kv t ih =>
    obtain ⟨a, v⟩ := kv
    by_cases h : a = k
    · subst h
      have hja : (j == a) = false := by simpa using hj
      rw [deleteProp_cons_same, List.lookup_cons, hja]
      exact ih
    · rw [deleteProp_cons_other _ _ _ _ h, List.lookup_cons, List.lookup_cons, ih]

/-- Replacing the body of a request changes the literal `data` at the key `body` only. -/
theorem deleteProp_requestData_body (req : Request) (b : JSVal) (now : String) :
    deleteProp (requestData { req with body := b } now) "body" =
      deleteProp (requestData req now) "body" := by
  simp [deleteProp, requestData, List.filter, getClientIP, paramsObj, cookiesVal]

theorem lookup_formatRequestData_of_ne (req : Request) (now : String) (k : String)
    (hk : k ≠ "body") :
    (formatRequestData req now).lookup k = (requestData req now).lookup k := by
  unfold formatRequestData
  by_cases h : bodyIsDropped req.body = true
  · simpa [h] using lookup_deleteProp_of_ne _ _ _ hk
  · simp [h]

theorem lookup_requestData_of_ne (req : Request) (b : JSVal) (now : String) (k : String)
    (hk : k ≠ "body") :
    (requestData { req with body := b } now).lookup k = (requestData req now).lookup k := by
  rw [← lookup_deleteProp_of_ne _ "body" k hk, ← lookup_deleteProp_of_ne (requestData req now) "body" k hk,
    deleteProp_requestData_body]

/-- C3: when the parsed body is `undefined`, `null` or the empty mapping, the snapshot of
`formatRequestData` has no `body` key, and under every other key it holds what the
snapshot of the same request carrying any body `b` holds. -/
theorem snapshot_omits_absent_body (req : Request) (now : String)
    (h : req.body = .undefined ∨ req.body = .null ∨ req.body = .obj []) :
    (formatRequestData req now).lookup "body" = none ∧
      ∀ (b : JSVal) (k : String), k ≠ "body" →
        (formatRequestData req now).lookup k =
          (formatRequestData { req with body := b } now).lookup k := by
  have hdrop : bodyIsDropped req.body = true := by
    rcases h with h | h | h <;> rw [h] <;> rfl
  refine ⟨?_, ?_⟩
  · simpa [formatRequestData, hdrop] using lookup_deleteProp_self (requestData req now) "body"
  · intro b k hk
    rw [lookup_formatRequestData_of_ne _ _ _ hk, lookup_formatRequestData_of_ne _ _ _ hk]
    exact (lookup_requestData_of_ne req b now k hk).symm

theorem snapshot_omits_absent_body_witness :
    ((postRequest (.obj [])).body = .undefined ∨ (postRequest (.obj [])).body = .null ∨
        (postRequest (.obj [])).body = .obj []) ∧
      ((formatRequestData (postRequest (.obj [])) "2024-01-01T00:00:00.000Z").lookup "body" = none ∧
        ∀ (b : JSVal) (k : String), k ≠ "body" →
          (formatRequestData (postRequest (.obj [])) "2024-01-01T00:00:00.000Z").lookup k =
            (formatRequestData { postRequest (.obj []) with body := b }
              "2024-01-01T00:00:00.000Z").lookup k) :=
  ⟨Or.inr (Or.inr rfl),
    snapshot_omits_absent_body (postRequest (.obj [])) "2024-01-01T00:00:00.000Z"
      (Or.inr (Or.inr rfl))⟩

/-- C4, as stated, fails: the empty array is neither absent, nor the empty string, nor
the empty mapping, yet the snapshot of a request whose parsed body is `[]` has no
`body` key. -/
theorem snapshot_drops_empty_array :
    (JSVal.arr [] ≠ .undefined ∧ JSVal.arr [] ≠ .null ∧ JSVal.arr [] ≠ .str "" ∧
        JSVal.arr [] ≠ .obj []) ∧
      (formatRequestData (postRequest (.arr [])) "2024-01-01T00:00:00.000Z").lookup "body" =
        none := by
  refine ⟨⟨?_, ?_, ?_, ?_⟩, rfl⟩ <;> intro h <;> cases h

/-- C4, amended: when the parsed body is a non-empty string, a non-zero number, `true`,
or an array, buffer or plain object with at least one key, the snapshot of
`formatRequestData` has the key `body` and its value is the parsed body. -/
theorem snapshot_keeps_nonempty_body (req : Request) (now : String)
    (h : NonEmptyBody req.body) :
    (formatRequestData req now).lookup "body" = some req.body := by
  have hkeep : bodyIsDropped req.body = false := by
    cases hb : req.body <;> rw [hb] at h <;>
      simp_all [NonEmptyBody, bodyIsDropped, truthy, typeofIsObject, objectKeysLength]
  simp [formatRequestData, hkeep, requestData, List.lookup]

theorem snapshot_keeps_nonempty_body_witness :
    NonEmptyBody (postRequest (.arr [.num 1])).body ∧
      (formatRequestData (postRequest (.arr [.num 1])) "2024-01-01T00:00:00.000Z").lookup "body" =
        some (postRequest (.arr [.num 1])).body :=
  ⟨by simp [postRequest, NonEmptyBody],
    snapshot_keeps_nonempty_body (postRequest (.arr [.num 1])) "2024-01-01T00:00:00.000Z"
      (by simp [postRequest, NonEmptyBody])⟩

/-- C9: every snapshot of `formatRequestData` has the keys `headers`, `query`, `params`
and `cookies`; the first three hold the mappings of the request, and `cookies` holds
the cookies of the request, or the empty mapping when the request has none. -/
theorem snapshot_always_has_mappings (req : Request) (now : String) :
    (formatRequestData req now).lookup "headers" = some (.obj req.headers) ∧
      (formatRequestData req now).lookup "query" = some (.obj req.query) ∧
      (formatRequestData req now).lookup "params" = some (.obj (paramsObj req)) ∧
      (formatRequestData req now).lookup "cookies" = some (.obj (req.cookies.getD [])) := by
  have hc : jsOr (cookiesVal req) (.obj []) = .obj (req.cookies.getD []) := by
    cases hcook : req.cookies <;> simp [cookiesVal, hcook, jsOr, truthy]
  refine ⟨?_, ?_, ?_, ?_⟩
  · rw [lookup_formatRequestData_of_ne _ _ _ (by decide)]; rfl
  · rw [lookup_formatRequestData_of_ne _ _ _ (by decide)]; rfl
  · rw [lookup_formatRequestData_of_ne _ _ _ (by decide)]; rfl
  · rw [lookup_formatRequestData_of_ne _ _ _ (by decide), ← hc]; rfl

/-! ## `/delay/:seconds` -/

/-- C5: when `parseInt` reads an integer greater than 10 from the `seconds` parameter,
the delay handler answers at once with HTTP status 400 and exactly the body
`error: "Delay too long. Maximum delay is 10 seconds"`; the outcome is the immediate
answer, so no timer is armed and no 200 answer follows. -/
theorem delay_handler_too_long (req : Request) (n : Int)
    (hparse : parseInt (req.params.lookup "seconds") = some n) (hn : 10 < n) :
    delayHandler req =
      .respond
        { status := 400
          body := .obj [ ("error", .str "Delay too long. Maximum delay is 10 seconds") ] } := by
  have hne : n ≠ 0 := by omega
  have hd : parsedDelay req = n := by simp [parsedDelay, hparse, hne]
  have hmsg : "Delay too long. Maximum delay is " ++ numToString maxDelay ++ " seconds" =
      "Delay too long. Maximum delay is 10 seconds" := by decide
  have hgt : n > maxDelay := hn
  simp only [delayHandler, hd]
  rw [if_pos hgt, hmsg]

theorem delay_handler_too_long_witness :
    parseInt ((delayRequest "11").params.lookup "seconds") = some 11 ∧ (10 : Int) < 11 ∧
      delayHandler (delayRequest "11") =
        .respond
          { status := 400
            body := .obj [ ("error", .str "Delay too long. Maximum delay is 10 seconds") ] } :=
  ⟨rfl, by decide, delay_handler_too_long (delayRequest "11") 11 rfl (by decide)⟩

/-- C6: when the `seconds` parameter is the decimal text of an integer `s` with
`0 ≤ s ≤ 10`, the delay handler arms one timer of `s * 1000` milliseconds whose
callback answers with HTTP status 200 and the body `delay: s`,
`message: "Delayed response by s seconds"`, `request:` the snapshot of
`formatRequestData` taken when the callback runs.  (The source tests the upper bound
only; the lower bound of the claim is not needed.) -/
theorem delay_handler_schedules (req : Request) (s : Int)
    (hsec : req.params.lookup "seconds" = some (toString s)) (_hlo : 0 ≤ s) (hhi : s ≤ 10) :
    delayHandler req =
      .setTimeout (s * 1000) (fun now =>
        { status := 200
          body := .obj [ ("delay", .num s),
                         ("message", .str ("Delayed response by " ++ toString s ++ " seconds")),
                         ("request", .obj (formatRequestData req now)) ] }) := by
  have hd : parsedDelay req = s := by
    by_cases h0 : s = 0
    · simp [parsedDelay, hsec, parseInt_toString, h0]
    · simp [parsedDelay, hsec, parseInt_toString, h0]
  have hle : ¬ s > maxDelay := by simpa [maxDelay] using hhi
  simp only [delayHandler, hd]
  rw [if_neg hle]
  rfl

theorem delay_handler_schedules_witness :
    (delayRequest "3").params.lookup "seconds" = some (toString (3 : Int)) ∧
      (0 : Int) ≤ 3 ∧ (3 : Int) ≤ 10 ∧
      delayHandler (delayRequest "3") =
        .setTimeout (3 * 1000) (fun now =>
          { status := 200
            body := .obj [ ("delay", .num 3),
                           ("message",
                             .str ("Delayed response by " ++ toString (3 : Int) ++ " seconds")),
                           ("request", .obj (formatRequestData (delayRequest "3") now)) ] }) :=
  ⟨rfl, by decide, by decide,
    delay_handler_schedules (delayRequest "3") 3 rfl (by decide) (by decide)⟩

/-- C8, as stated, fails: the parameter `5abc` is not the decimal text of any integer,
yet the parsed delay is 5, and the handler arms a timer of 5000 ms whose answer
carries `delay: 5`. -/
theorem delay_handler_trailing_letters_accepted :
    (∀ i : Int, toString i ≠ "5abc") ∧
      parsedDelay (delayRequest "5abc") = 5 ∧
      delayHandler (delayRequest "5abc") =
        .setTimeout 5000 (fun now =>
          { status := 200
            body := .obj [ ("delay", .num 5),
                           ("message", .str "Delayed response by 5 seconds"),
                           ("request", .obj (formatRequestData (delayRequest "5abc") now)) ] }) :=
  ⟨not_decimal_of_letter_a "5abc" (by decide), rfl, rfl⟩

/-- C8, amended: when `parseInt` reads no number from the `seconds` parameter (`NaN`, as
for `abc`, the empty text or a missing parameter) or reads 0 (as for `0abc`), the
parsed delay is 0: the handler arms a timer of 0 ms whose callback answers with HTTP
status 200 and `delay: 0`. -/
theorem delay_handler_nan_or_zero (req : Request)
    (hparse : parseInt (req.params.lookup "seconds") = none ∨
      parseInt (req.params.lookup "seconds") = some 0) :
    parsedDelay req = 0 ∧
      delayHandler req =
        .setTimeout 0 (fun now =>
          { status := 200
            body := .obj [ ("delay", .num 0),
                           ("message", .str "Delayed response by 0 seconds"),
                           ("request", .obj (formatRequestData req now)) ] }) := by
  have hd : parsedDelay req = 0 := by
    rcases hparse with h | h <;> simp [parsedDelay, h]
  have hle : ¬ (0 : Int) > maxDelay := by decide
  refine ⟨hd, ?_⟩
  simp only [delayHandler, hd]
  rw [if_neg hle]
  rfl

theorem delay_handler_nan_or_zero_witness :
    (parseInt ((delayRequest "abc").params.lookup "seconds") = none ∨
        parseInt ((delayRequest "abc").params.lookup "seconds") = some 0) ∧
      (parsedDelay (delayRequest "abc") = 0 ∧
        delayHandler (delayRequest "abc") =
          .setTimeout 0 (fun now =>
            { status := 200
              body := .obj [ ("delay", .num 0),
                             ("message", .str "Delayed response by 0 seconds"),
                             ("request", .obj (formatRequestData (delayRequest "abc") now)) ] })) :=
  ⟨Or.inl rfl, delay_handler_nan_or_zero (delayRequest "abc") (Or.inl rfl)⟩

/-- The texts the delay claim names: `abc`, the empty text and a missing parameter read
as `NaN`; `0abc` reads as 0. -/
theorem delay_unparsed_cases :
    parseInt (some "abc") = none ∧ parseInt (some "") = none ∧ parseInt none = none ∧
      parseInt (some "0abc") = some 0 :=
  ⟨rfl, rfl, rfl, rfl⟩

/-! ## `getClientIP` and `/ip` -/

theorem jsOr_of_truthy (a b : JSVal) (h : truthy a = true) : jsOr a b = a := by
  simp [jsOr, h]

theorem jsOr_of_falsy (a b : JSVal) (h : truthy a = false) : jsOr a b = b := by
  simp [jsOr, h]

theorem truthy_ne_undefined (a : JSVal) (h : truthy a = true) : a ≠ .undefined := by
  intro e; rw [e] at h; exact absurd h (by decide)

/-- C7, as stated, fails: a request that carries an `X-Forwarded-For` header with an empty
value does not get that value back; `getClientIP` returns the remote address of the
connection, and `/ip` answers with it. -/
theorem client_ip_skips_empty_forwarded_for :
    (forwardedRequest "").headers.lookup "x-forwarded-for" = some (.str "") ∧
      getClientIP (forwardedRequest "") = .str "127.0.0.1" ∧
      getClientIP (forwardedRequest "") ≠ .str "" ∧
      ipHandler (forwardedRequest "") =
        .respond { status := 200, body := .obj [ ("origin", .str "127.0.0.1") ] } := by
  refine ⟨rfl, rfl, ?_, rfl⟩
  have h : getClientIP (forwardedRequest "") = .str "127.0.0.1" := rfl
  rw [h]
  intro e
  injection e with e
  exact absurd e (by decide)

/-- C7, amended: when a request carries an `X-Forwarded-For` header whose value is a
non-empty string (a comma-separated list or a value with surrounding spaces included),
`getClientIP` returns that value verbatim, whatever the remote addresses of the
connection and the socket; `/ip` answers `origin:` that value, and the `ip` field of
the snapshot is that value. -/
theorem client_ip_forwarded_for_verbatim (req : Request) (now : String) (v : String)
    (hhdr : req.headers.lookup "x-forwarded-for" = some (.str v)) (hv : v ≠ "") :
    getClientIP req = .str v ∧
      ipHandler req = .respond { status := 200, body := .obj [ ("origin", .str v) ] } ∧
      (formatRequestData req now).lookup "ip" = some (.str v) := by
  have ht : truthy (.str v) = true := by simpa [truthy] using hv
  have hip : getClientIP req = .str v := by
    simp only [getClientIP, getProp, hhdr]
    rw [jsOr_of_truthy (.str v) _ ht, jsOr_of_truthy (.str v) _ ht, jsOr_of_truthy (.str v) _ ht]
  refine ⟨hip, by simp [ipHandler, hip], ?_⟩
  rw [lookup_formatRequestData_of_ne _ _ _ (by decide)]
  simp [requestData, List.lookup, hip]

theorem client_ip_forwarded_for_verbatim_witness :
    (forwardedRequest " 203.0.113.7, 10.0.0.1 ").headers.lookup "x-forwarded-for" =
        some (.str " 203.0.113.7, 10.0.0.1 ") ∧
      " 203.0.113.7, 10.0.0.1 " ≠ "" ∧
      (getClientIP (forwardedRequest " 203.0.113.7, 10.0.0.1 ") =
          .str " 203.0.113.7, 10.0.0.1 " ∧
        ipHandler (forwardedRequest " 203.0.113.7, 10.0.0.1 ") =
          .respond { status := 200,
                     body := .obj [ ("origin", .str " 203.0.113.7, 10.0.0.1 ") ] } ∧
        (formatRequestData (forwardedRequest " 203.0.113.7, 10.0.0.1 ")
            "2024-01-01T00:00:00.000Z").lookup "ip" =
          some (.str " 203.0.113.7, 10.0.0.1 ")) :=
  ⟨rfl, by decide,
    client_ip_forwarded_for_verbatim (forwardedRequest " 203.0.113.7, 10.0.0.1 ")
      "2024-01-01T00:00:00.000Z" " 203.0.113.7, 10.0.0.1 " rfl (by decide)⟩

/-- C10, as stated, fails: the request carries an `X-Forwarded-For` header with an empty
value, so the header is the first present of the three sources, yet the `origin` that
`/ip` answers is not that value but the remote address of the connection. -/
theorem ip_handler_passes_over_empty_header :
    (forwardedRequestFrom "" "192.0.2.44").connection.socket = none ∧
      [getProp (forwardedRequestFrom "" "192.0.2.44").headers "x-forwarded-for",
        (forwardedRequestFrom "" "192.0.2.44").connection.remoteAddress,
        (forwardedRequestFrom "" "192.0.2.44").socket.remoteAddress].find? isPresent =
          some (.str "") ∧
      ipHandler (forwardedRequestFrom "" "192.0.2.44") =
        .respond { status := 200, body := .obj [ ("origin", .str "192.0.2.44") ] } ∧
      JSVal.str "192.0.2.44" ≠ .str "" := by
  refine ⟨rfl, rfl, rfl, ?_⟩
  intro e
  injection e with e
  exact absurd e (by decide)

/-- A direct call of `getClientIP` on an object whose three first sources are unset and
whose connection has a nested socket with an address returns that address: the
ternary of server.js 22 is a fourth source. -/
theorem getClientIP_nested_socket_address :
    getClientIP (nestedSocketRequest (some { remoteAddress := .str "10.1.2.3" })) =
      .str "10.1.2.3" :=
  rfl

/-- A direct call of `getClientIP` on an object whose three first sources are unset and
whose connection has a nested socket without a remote address returns `undefined`,
which `JSON.stringify` leaves out. -/
theorem getClientIP_nested_socket_without_address :
    getClientIP (nestedSocketRequest (some { remoteAddress := .undefined })) = .undefined ∧
      jsonMembers [ ("origin", getClientIP (nestedSocketRequest
        (some { remoteAddress := .undefined }))) ] = [] :=
  ⟨rfl, rfl⟩

/-- C10, amended: `/ip` answers 200 with the object `origin: v`, where `v` is the first
truthy (defined and non-empty) of the `X-Forwarded-For` header, the remote address of
the connection and the remote address of the socket; when none of them is truthy, `v`
is the remote address of the nested connection socket if there is one, and `null` if
there is none.  Outside the case "nothing is truthy and a nested socket exists without
a remote address", `v` is not `undefined`, so the JSON object has the key `origin`. -/
theorem ip_handler_origin (req : Request)
    (h : (∃ a ∈ [getProp req.headers "x-forwarded-for", req.connection.remoteAddress,
            req.socket.remoteAddress], truthy a = true) ∨
          ∀ s, req.connection.socket = some s → s.remoteAddress ≠ .undefined) :
    ∃ v, ipHandler req = .respond { status := 200, body := .obj [ ("origin", v) ] } ∧
      (jsonMembers [ ("origin", v) ]).lookup "origin" = some v ∧
      v = (match [getProp req.headers "x-forwarded-for", req.connection.remoteAddress,
                  req.socket.remoteAddress].find? truthy with
            | some a => a
            | none =>
              match req.connection.socket with
              | some s => s.remoteAddress
              | none => .null) := by
  refine ⟨getClientIP req, rfl, ?_, ?_⟩
  · have hdef : getClientIP req ≠ .undefined := by
      unfold getClientIP
      by_cases h1 : truthy (getProp req.headers "x-forwarded-for") = true
      · rw [jsOr_of_truthy _ _ h1, jsOr_of_truthy _ _ h1, jsOr_of_truthy _ _ h1]
        exact truthy_ne_undefined _ h1
      · have h1f : truthy (getProp req.headers "x-forwarded-for") = false := by simpa using h1
        rw [jsOr_of_falsy _ _ h1f]
        by_cases h2 : truthy req.connection.remoteAddress = true
        · rw [jsOr_of_truthy _ _ h2, jsOr_of_truthy _ _ h2]
          exact truthy_ne_undefined _ h2
        · have h2f : truthy req.connection.remoteAddress = false := by simpa using h2
          rw [jsOr_of_falsy _ _ h2f]
          by_cases h3 : truthy req.socket.remoteAddress = true
          · rw [jsOr_of_truthy _ _ h3]
            exact truthy_ne_undefined _ h3
          · have h3f : truthy req.socket.remoteAddress = false := by simpa using h3
            rw [jsOr_of_falsy _ _ h3f]
            rcases h with ⟨a, ha, hat⟩ | h
            · simp only [List.mem_cons, List.mem_singleton, List.not_mem_nil, or_false] at ha
              rcases ha with rfl | rfl | rfl
              · exact absurd hat h1
              · exact absurd hat h2
              · exact absurd hat h3
            · cases hs : req.connection.socket with
              | none => intro e; cases e
              | some s => exact h s hs
    cases hv : getClientIP req <;> first | exact absurd hv hdef | simp [jsonMembers, List.lookup]
  · unfold getClientIP
    by_cases h1 : truthy (getProp req.headers "x-forwarded-for") = true
    · rw [jsOr_of_truthy _ _ h1, jsOr_of_truthy _ _ h1, jsOr_of_truthy _ _ h1]
      simp [List.find?, h1]
    · have h1f : truthy (getProp req.headers "x-forwarded-for") = false := by simpa using h1
      rw [jsOr_of_falsy _ _ h1f]
      by_cases h2 : truthy req.connection.remoteAddress = true
      · rw [jsOr_of_truthy _ _ h2, jsOr_of_truthy _ _ h2]
        simp [List.find?, h1f, h2]
      · have h2f : truthy req.connection.remoteAddress = false := by simpa using h2
        rw [jsOr_of_falsy _ _ h2f]
        by_cases h3 : truthy req.socket.remoteAddress = true
        · rw [jsOr_of_truthy _ _ h3]
          simp [List.find?, h1f, h2f, h3]
        · have h3f : truthy req.socket.remoteAddress = false := by simpa using h3
          rw [jsOr_of_falsy _ _ h3f]
          simp [List.find?, h1f, h2f, h3f]

theorem ip_handler_origin_witness :
    ((∃ a ∈ [getProp sampleRequest.headers "x-forwarded-for", sampleRequest.connection.remoteAddress,
            sampleRequest.socket.remoteAddress], truthy a = true) ∨
          ∀ s, sampleRequest.connection.socket = some s → s.remoteAddress ≠ .undefined) ∧
      ∃ v, ipHandler sampleRequest = .respond { status := 200, body := .obj [ ("origin", v) ] } ∧
        (jsonMembers [ ("origin", v) ]).lookup "origin" = some v ∧
        v = (match [getProp sampleRequest.headers "x-forwarded-for",
                    sampleRequest.connection.remoteAddress,
                    sampleRequest.socket.remoteAddress].find? truthy with
              | some a => a
              | none =>
                match sampleRequest.connection.socket with
                | some s => s.remoteAddress
                | none => .null) :=
  ⟨Or.inr (fun s hs => by cases hs),
    ip_handler_origin sampleRequest (Or.inr (fun s hs => by cases hs))⟩

end Httpbin
